import Mathlib

/-!
Verification development for Flickerfy (src/index.tsx).

The file shallowly embeds the pipeline logic of the repository:
the frame-chain generator `generateFrames` (src/index.tsx lines 488-559)
with its retry/backoff/fallback policy, the response-extraction and
JSON-parsing steps of `detectObjects` (lines 423-454) and
`generatePrompts` (lines 456-486), the detection driver
`runObjectDetection` (lines 373-393) and the orchestration step of
`handleGenerateAnimation` (lines 395-421).

External effects are made explicit:
  * the generation service is an oracle `beh : Nat → Nat → GenResult`
    giving, for frame index `i` and attempt index `a`, either the
    image payload of the response or the message of the error the
    `catch` block receives (a missing-image response is thrown and
    caught with the same shape, so it is an `err` as well);
  * `setTimeout` waits and issued attempts are recorded in a
    per-frame `FrameTrace` so that timing/ordering claims are
    statements about the trace;
  * JavaScript's `JSON.parse` is embedded as a strict JSON parser;
    JS numbers are represented by exact rationals (the code performs
    no arithmetic on parsed numbers, so no float rounding is
    observable in any of the properties below).
-/

namespace Flickerfy

/-- `NUM_FRAMES_TO_GENERATE` (src/index.tsx line 6). -/
def NUM_FRAMES_TO_GENERATE : Nat := 6

/-- The `inlineData` payload of a generative part (src/index.tsx lines 19-26). -/
structure InlineData where
  data : String
  mimeType : String
deriving DecidableEq, Repr

/-- An image part as passed to the generation service (src/index.tsx lines 19-26). -/
structure ImagePart where
  inlineData : InlineData
deriving DecidableEq, Repr

/-- `base64ToGenerativePart` (src/index.tsx lines 24-26). -/
def base64ToGenerativePart (base64Data mimeType : String) : ImagePart :=
  { inlineData := { data := base64Data, mimeType := mimeType } }

/-- Outcome of one generation request as the `try` block of
`generateFrames` observes it (src/index.tsx lines 504-530): either the
response carried an inline image (`ok data mimeType`), or an error was
thrown — by the service call or by line 529 when the response had no
image data — and caught with message `msg`. -/
inductive GenResult where
  | ok (data mimeType : String)
  | err (msg : String)
deriving DecidableEq, Repr

/-- First index at which `needle` occurs as a contiguous sublist of `l`. -/
def findSubIdx (needle : List Char) : List Char → Option Nat
  | [] => if needle.isPrefixOf ([] : List Char) then some 0 else none
  | c :: rest =>
    if needle.isPrefixOf (c :: rest) then some 0
    else (findSubIdx needle rest).map (· + 1)

/-- `String.includes` of JavaScript: `s.includes(sub)`. -/
def strIncludes (s sub : String) : Bool :=
  (findSubIdx sub.data s.data).isSome

/-- The rate-limit test of src/index.tsx line 533:
`error.message.includes('429') || error.message.includes('RESOURCE_EXHAUSTED')`. -/
def isRateLimitMsg (msg : String) : Bool :=
  strIncludes msg "429" || strIncludes msg "RESOURCE_EXHAUSTED"

/-- `maxRetries` (src/index.tsx line 496). -/
def maxRetries : Nat := 3

/-- What one frame of the chain produced (the local variables of the
loop body at line 555, plus the instrumentation): `data` is
`newBase64Data`, `mimeType` is `newMimeType`, `last` is the value of
`lastSuccessfulBase64` after the frame, `waits` the sequence of
backoff delays actually awaited (milliseconds, in order), and
`attempts` the number of generation requests issued for the frame. -/
structure FrameOutcome where
  data : String
  mimeType : String
  last : String
  waits : List Nat
  attempts : Nat
deriving DecidableEq, Repr

/-- The inner `while (attempt < maxRetries && !success)` loop of
`generateFrames` (src/index.tsx lines 503-553) for a single frame.
`b a` is the result of the request issued when `attempt = a`;
`curMime` is `currentImagePart.inlineData.mimeType` (the initial value
of `newMimeType`, line 501) and `last` is `lastSuccessfulBase64` on
entry. `fuel` is only a termination bound: it is called with
`fuel = maxRetries`, which is never exhausted before the loop guard
fails, and a `fuel = 0` exit returns the line 551-553 fallback. -/
def retryLoop (b : Nat → GenResult) (curMime last : String) :
    Nat → Nat → Nat → FrameOutcome
  | _attempt, _delay, 0 =>
    { data := last, mimeType := curMime, last := last, waits := [], attempts := 0 }
  | attempt, delay, fuel + 1 =>
    if attempt < maxRetries then
      match b attempt with
      | .ok data mime =>
        -- lines 522-526: record the new image and the new lastSuccessfulBase64
        { data := data, mimeType := mime, last := data, waits := [], attempts := 1 }
      | .err msg =>
        -- lines 531-548: attempt++ then the rate-limit test
        if isRateLimitMsg msg then
          if attempt + 1 ≥ maxRetries then
            -- lines 534-537: retries exhausted, fall back
            { data := last, mimeType := curMime, last := last, waits := [], attempts := 1 }
          else
            -- lines 538-542: wait `delay` ms, double it, loop again
            let r := retryLoop b curMime last (attempt + 1) (delay * 2) fuel
            { data := r.data, mimeType := r.mimeType, last := r.last,
              waits := delay :: r.waits, attempts := r.attempts + 1 }
        else
          -- lines 543-547: non-rate-limit error, immediate fallback
          { data := last, mimeType := curMime, last := last, waits := [], attempts := 1 }
    else
      -- loop guard false with success still false (lines 551-553)
      { data := last, mimeType := curMime, last := last, waits := [], attempts := 0 }

/-- `true` exactly when the frame with per-attempt results `b` reaches a
terminal fallback: every issued attempt errors, the first two errors
being rate-limit ones if a further attempt is issued (the retry path),
and a non-rate-limit error or a third error ending the frame. -/
def frameUnrecoverable (b : Nat → GenResult) : Bool :=
  match b 0 with
  | .ok _ _ => false
  | .err m0 =>
    if isRateLimitMsg m0 then
      match b 1 with
      | .ok _ _ => false
      | .err m1 =>
        if isRateLimitMsg m1 then
          match b 2 with
          | .ok _ _ => false
          | .err _ => true
        else true
    else true

/-- Instrumentation of one iteration of the `for` loop of
`generateFrames`: `input` is `currentImagePart.inlineData.data` at the
start of the iteration (the image sent with the frame's requests),
`lastAtStart` is `lastSuccessfulBase64` at the start of the iteration,
`attempts` and `waits` are the frame's request count and backoff waits. -/
structure FrameTrace where
  input : String
  lastAtStart : String
  attempts : Nat
  waits : List Nat
deriving DecidableEq, Repr

/-- The `for` loop of `generateFrames` (src/index.tsx lines 493-557):
`i` is the loop index (used only to select the oracle's column),
`cur` is `currentImagePart`, `last` is `lastSuccessfulBase64`. Returns
`allFrames` paired with the per-frame traces. The prompt list only
drives the iteration (its entries appear in the request text, which the
oracle abstracts), hence the polymorphic element type. -/
def generateFramesAux (beh : Nat → Nat → GenResult) :
    Nat → ImagePart → String → List α → List String × List FrameTrace
  | _, _, _, [] => ([], [])
  | i, cur, last, _p :: rest =>
    let o := retryLoop (beh i) cur.inlineData.mimeType last 0 2000 maxRetries
    let r := generateFramesAux beh (i + 1) (base64ToGenerativePart o.data o.mimeType) o.last rest
    (o.data :: r.1,
      { input := cur.inlineData.data, lastAtStart := last,
        attempts := o.attempts, waits := o.waits } :: r.2)

/-- `generateFrames` (src/index.tsx lines 488-559): the returned
`allFrames` list together with the execution trace. -/
def generateFrames (beh : Nat → Nat → GenResult) (initialImagePart : ImagePart)
    (prompts : List α) : List String × List FrameTrace :=
  generateFramesAux beh 0 initialImagePart initialImagePart.inlineData.data prompts

/-- The frame loop maintains `lastSuccessfulBase64 = newBase64Data` on
exit of the retry loop: on success both are the fresh image (lines
523-525), on every fallback both are the old `lastSuccessfulBase64`. -/
theorem retryLoop_last_eq_data (b : Nat → GenResult) (curMime last : String)
    (attempt delay fuel : Nat) :
    (retryLoop b curMime last attempt delay fuel).last =
      (retryLoop b curMime last attempt delay fuel).data := by
  induction fuel generalizing attempt delay with
  | zero => rfl
  | succ n ih =>
    simp only [retryLoop]
    split
    · cases b attempt with
      | ok d m => rfl
      | err msg =>
        by_cases h : isRateLimitMsg msg
        · simp only [h, if_true]
          split
          · rfl
          · simpa using ih (attempt + 1) (delay * 2)
        · simp [h]
    · rfl

/-- Attempt/wait accounting of one frame: a frame issues 1, 2 or 3
requests, waiting `[]`, `[2000]` or `[2000, 4000]` milliseconds
respectively before its retries. -/
theorem retryLoop_attempts_waits (b : Nat → GenResult) (m l : String) :
    ((retryLoop b m l 0 2000 maxRetries).attempts = 1 ∧
        (retryLoop b m l 0 2000 maxRetries).waits = []) ∨
      ((retryLoop b m l 0 2000 maxRetries).attempts = 2 ∧
        (retryLoop b m l 0 2000 maxRetries).waits = [2000]) ∨
      ((retryLoop b m l 0 2000 maxRetries).attempts = 3 ∧
        (retryLoop b m l 0 2000 maxRetries).waits = [2000, 4000]) := by
  rcases hb0 : b 0 with ⟨d0, mm0⟩ | e0
  · left
    simp [retryLoop, maxRetries, hb0]
  · by_cases hr0 : isRateLimitMsg e0
    · rcases hb1 : b 1 with ⟨d1, mm1⟩ | e1
      · right; left
        simp [retryLoop, maxRetries, hb0, hr0, hb1]
      · by_cases hr1 : isRateLimitMsg e1
        · right; right
          rcases hb2 : b 2 with ⟨d2, mm2⟩ | e2 <;>
            simp [retryLoop, maxRetries, hb0, hr0, hb1, hr1, hb2]
        · right; left
          simp [retryLoop, maxRetries, hb0, hr0, hb1, hr1]
    · left
      simp [retryLoop, maxRetries, hb0, hr0]

/-- When a frame is unrecoverable its retry loop emits the entering
`lastSuccessfulBase64` and keeps the entering MIME type. -/
theorem retryLoop_fallback_of_unrecoverable (b : Nat → GenResult) (m l : String)
    (h : frameUnrecoverable b = true) :
    (retryLoop b m l 0 2000 maxRetries).data = l ∧
      (retryLoop b m l 0 2000 maxRetries).mimeType = m := by
  rcases hb0 : b 0 with ⟨d0, mm0⟩ | e0
  · simp [frameUnrecoverable, hb0] at h
  · by_cases hr0 : isRateLimitMsg e0
    · rcases hb1 : b 1 with ⟨d1, mm1⟩ | e1
      · simp [frameUnrecoverable, hb0, hr0, hb1] at h
      · by_cases hr1 : isRateLimitMsg e1
        · rcases hb2 : b 2 with ⟨d2, mm2⟩ | e2
          · simp [frameUnrecoverable, hb0, hr0, hb1, hr1, hb2] at h
          · simp [retryLoop, maxRetries, hb0, hr0, hb1, hr1, hb2]
        · simp [retryLoop, maxRetries, hb0, hr0, hb1, hr1]
    · simp [retryLoop, maxRetries, hb0, hr0]

/-- A first attempt failing with a non-rate-limit message ends the frame
at once: fallback data, entering MIME type, one request, no wait. -/
theorem retryLoop_nonratelimit (b : Nat → GenResult) (m l msg : String)
    (hb : b 0 = .err msg) (hr : isRateLimitMsg msg = false) :
    retryLoop b m l 0 2000 maxRetries =
      { data := l, mimeType := m, last := l, waits := [], attempts := 1 } := by
  simp [retryLoop, maxRetries, hb, hr]

/-- A non-rate-limit error on the first attempt makes the frame
unrecoverable (no retry path exists for it). -/
theorem frameUnrecoverable_of_nonratelimit (b : Nat → GenResult) (msg : String)
    (hb : b 0 = .err msg) (hr : isRateLimitMsg msg = false) :
    frameUnrecoverable b = true := by
  simp [frameUnrecoverable, hb, hr]

/-- The chain emits one frame per prompt. -/
theorem generateFramesAux_length_fst (beh : Nat → Nat → GenResult) (ps : List α) :
    ∀ (i : Nat) (cur : ImagePart) (last : String),
      (generateFramesAux beh i cur last ps).1.length = ps.length := by
  induction ps with
  | nil => intro i cur last; rfl
  | cons p rest ih => intro i cur last; simp [generateFramesAux, ih]

/-- The chain records one trace entry per prompt. -/
theorem generateFramesAux_length_snd (beh : Nat → Nat → GenResult) (ps : List α) :
    ∀ (i : Nat) (cur : ImagePart) (last : String),
      (generateFramesAux beh i cur last ps).2.length = ps.length := by
  induction ps with
  | nil => intro i cur last; rfl
  | cons p rest ih => intro i cur last; simp [generateFramesAux, ih]

/-- The first iteration's request input is the entering chain image. -/
theorem generateFramesAux_input_zero (beh : Nat → Nat → GenResult) (p : α)
    (rest : List α) (i : Nat) (cur : ImagePart) (last : String) :
    ((generateFramesAux beh i cur last (p :: rest)).2)[0]?.map FrameTrace.input =
      some cur.inlineData.data := by
  simp [generateFramesAux]

/-- The request input of frame `j + 1` is the payload the chain emitted
for frame `j`: `currentImagePart` is rebuilt from `newBase64Data` at
line 556 before the next iteration. -/
theorem generateFramesAux_input_succ (beh : Nat → Nat → GenResult) (ps : List α) :
    ∀ (i : Nat) (cur : ImagePart) (last : String) (j : Nat), j + 1 < ps.length →
      ((generateFramesAux beh i cur last ps).2)[j + 1]?.map FrameTrace.input =
        ((generateFramesAux beh i cur last ps).1)[j]? := by
  induction ps with
  | nil => intro i cur last j h; simp at h
  | cons p rest ih =>
    intro i cur last j h
    cases j with
    | zero =>
      cases rest with
      | nil => simp at h
      | cons q rest2 =>
        simp [generateFramesAux, base64ToGenerativePart]
    | succ j2 =>
      simp only [generateFramesAux, List.getElem?_cons_succ]
      exact ih (i + 1) _ _ j2 (by simpa using h)

/-- With the entering invariant `currentImagePart.inlineData.data =
lastSuccessfulBase64`, every iteration starts with its request input
equal to `lastSuccessfulBase64`. -/
theorem generateFramesAux_lastAtStart (beh : Nat → Nat → GenResult) (ps : List α) :
    ∀ (i : Nat) (cur : ImagePart) (last : String) (j : Nat), cur.inlineData.data = last →
      ((generateFramesAux beh i cur last ps).2)[j]?.map FrameTrace.lastAtStart =
        ((generateFramesAux beh i cur last ps).2)[j]?.map FrameTrace.input := by
  induction ps with
  | nil => intro i cur last j h; simp [generateFramesAux]
  | cons p rest ih =>
    intro i cur last j h
    cases j with
    | zero => simp [generateFramesAux, h]
    | succ j2 =>
      simp only [generateFramesAux, List.getElem?_cons_succ]
      exact ih (i + 1) _ _ j2
        (by simp [base64ToGenerativePart, retryLoop_last_eq_data])

/-- An unrecoverable frame emits the `lastSuccessfulBase64` it started
with. -/
theorem generateFramesAux_unrecoverable (beh : Nat → Nat → GenResult) (ps : List α) :
    ∀ (i : Nat) (cur : ImagePart) (last : String) (j : Nat),
      j < ps.length → cur.inlineData.data = last →
      frameUnrecoverable (beh (i + j)) = true →
      ((generateFramesAux beh i cur last ps).1)[j]? =
        ((generateFramesAux beh i cur last ps).2)[j]?.map FrameTrace.lastAtStart := by
  induction ps with
  | nil => intro i cur last j hj; simp at hj
  | cons p rest ih =>
    intro i cur last j hj hcl hu
    cases j with
    | zero =>
      have hfall := retryLoop_fallback_of_unrecoverable (beh i)
        cur.inlineData.mimeType last (by simpa using hu)
      simp [generateFramesAux, hfall.1]
    | succ j2 =>
      simp only [generateFramesAux, List.getElem?_cons_succ]
      exact ih (i + 1) _ _ j2 (by simpa using hj)
        (by simp [base64ToGenerativePart, retryLoop_last_eq_data])
        (by rw [show (i + 1) + j2 = i + (j2 + 1) by omega]; exact hu)

/-- Attempt/wait accounting transported to every frame of the chain. -/
theorem generateFramesAux_attempts (beh : Nat → Nat → GenResult) (ps : List α) :
    ∀ (i : Nat) (cur : ImagePart) (last : String) (j : Nat) (t : FrameTrace),
      ((generateFramesAux beh i cur last ps).2)[j]? = some t →
      (t.attempts = 1 ∧ t.waits = []) ∨ (t.attempts = 2 ∧ t.waits = [2000]) ∨
        (t.attempts = 3 ∧ t.waits = [2000, 4000]) := by
  induction ps with
  | nil => intro i cur last j t h; simp [generateFramesAux] at h
  | cons p rest ih =>
    intro i cur last j t h
    cases j with
    | zero =>
      simp only [generateFramesAux, List.getElem?_cons_zero, Option.some.injEq] at h
      rcases retryLoop_attempts_waits (beh i) cur.inlineData.mimeType last with
        ⟨ha, hw⟩ | ⟨ha, hw⟩ | ⟨ha, hw⟩ <;> rw [← h] <;> simp [ha, hw]
    | succ j2 =>
      simp only [generateFramesAux, List.getElem?_cons_succ] at h
      exact ih _ _ _ _ _ h

/-- Non-rate-limit first-attempt failure transported to frame `j` of
the chain: one request, no wait. -/
theorem generateFramesAux_nonrl (beh : Nat → Nat → GenResult) (ps : List α) :
    ∀ (i : Nat) (cur : ImagePart) (last : String) (j : Nat) (msg : String), j < ps.length →
      beh (i + j) 0 = .err msg → isRateLimitMsg msg = false →
      ((generateFramesAux beh i cur last ps).2)[j]?.map FrameTrace.attempts = some 1 ∧
        ((generateFramesAux beh i cur last ps).2)[j]?.map FrameTrace.waits = some [] := by
  induction ps with
  | nil => intro i cur last j msg hj; simp at hj
  | cons p rest ih =>
    intro i cur last j msg hj hb hr
    cases j with
    | zero =>
      have := retryLoop_nonratelimit (beh i) cur.inlineData.mimeType last msg
        (by simpa using hb) hr
      simp [generateFramesAux, this]
    | succ j2 =>
      simp only [generateFramesAux, List.getElem?_cons_succ]
      exact ih (i + 1) _ _ j2 msg (by simpa using hj)
        (by rw [show (i + 1) + j2 = i + (j2 + 1) by omega]; exact hb) hr

/-- An unrecoverable frame `k` emits the previous frame's payload (the
original image's data when `k = 0`). Shared helper for the fallback
claims. -/
theorem generateFrames_fallback_eq (beh : Nat → Nat → GenResult)
    (initialImagePart : ImagePart) (prompts : List α) (k : Nat)
    (hk : k < prompts.length) (hu : frameUnrecoverable (beh k) = true) :
    ((generateFrames beh initialImagePart prompts).1)[k]? =
      (if k = 0 then some initialImagePart.inlineData.data
        else ((generateFrames beh initialImagePart prompts).1)[k - 1]?) := by
  simp only [generateFrames]
  have h1 := generateFramesAux_unrecoverable beh prompts 0 initialImagePart
    initialImagePart.inlineData.data k hk rfl (by simpa using hu)
  have h2 := generateFramesAux_lastAtStart beh prompts 0 initialImagePart
    initialImagePart.inlineData.data k rfl
  rw [h1, h2]
  cases k with
  | zero =>
    cases prompts with
    | nil => simp at hk
    | cons p rest =>
      simpa using generateFramesAux_input_zero beh p rest 0 initialImagePart
        initialImagePart.inlineData.data
  | succ k2 =>
    simpa using generateFramesAux_input_succ beh prompts 0 initialImagePart
      initialImagePart.inlineData.data k2 hk

/-- C1: for every prompt list and frame index `k` within it, if frame
`k`'s generation fails unrecoverably (rate-limit retries exhausted, or
a non-rate-limit error), the payload emitted for frame `k` equals the
payload emitted for frame `k - 1` (the original input image's data when
`k` is the first frame), and the chain image passed as input to frame
`k + 1`'s request, when that frame exists, is that same fallback
payload. Indices are 0-based here; the claim's 1-based frame `k` is
index `k - 1`. -/
theorem claim_C1_fallback_correctness (beh : Nat → Nat → GenResult)
    (initialImagePart : ImagePart) (prompts : List α) (k : Nat)
    (hk : k < prompts.length) (hu : frameUnrecoverable (beh k) = true) :
    ((generateFrames beh initialImagePart prompts).1)[k]? =
      (if k = 0 then some initialImagePart.inlineData.data
        else ((generateFrames beh initialImagePart prompts).1)[k - 1]?) ∧
    (k + 1 < prompts.length →
      ((generateFrames beh initialImagePart prompts).2)[k + 1]?.map FrameTrace.input =
        ((generateFrames beh initialImagePart prompts).1)[k]?) := by
  refine ⟨generateFrames_fallback_eq beh initialImagePart prompts k hk hu, fun h => ?_⟩
  simp only [generateFrames]
  exact generateFramesAux_input_succ beh prompts 0 initialImagePart
    initialImagePart.inlineData.data k h

/-- Witness for C1 at a concrete run: two prompts, every request
rate-limited, so frame 1 (0-based) falls back to frame 0's payload, and
frame 0 fell back to the original image. -/
theorem claim_C1_fallback_correctness_witness :
    ((generateFrames (fun _ _ => GenResult.err "429")
        (base64ToGenerativePart "orig" "image/png") (["a", "b"] : List String)).1)[1]? =
      (if 1 = 0 then some (base64ToGenerativePart "orig" "image/png").inlineData.data
        else ((generateFrames (fun _ _ => GenResult.err "429")
          (base64ToGenerativePart "orig" "image/png") (["a", "b"] : List String)).1)[1 - 1]?) ∧
    (1 + 1 < (["a", "b"] : List String).length →
      ((generateFrames (fun _ _ => GenResult.err "429")
          (base64ToGenerativePart "orig" "image/png")
          (["a", "b"] : List String)).2)[1 + 1]?.map FrameTrace.input =
        ((generateFrames (fun _ _ => GenResult.err "429")
          (base64ToGenerativePart "orig" "image/png") (["a", "b"] : List String)).1)[1]?) :=
  claim_C1_fallback_correctness (fun _ _ => GenResult.err "429")
    (base64ToGenerativePart "orig" "image/png") (["a", "b"] : List String) 1
    (by decide) (by decide)

/-- C2: for every initial image part, every prompt list and every
behaviour of the external generation service, `generateFrames` returns
a list of exactly one frame payload per prompt, in prompt order. The
embedding is a total function, so no sequence of per-frame failures can
make it throw. -/
theorem claim_C2_chain_length (beh : Nat → Nat → GenResult)
    (initialImagePart : ImagePart) (prompts : List α) :
    (generateFrames beh initialImagePart prompts).1.length = prompts.length :=
  generateFramesAux_length_fst beh prompts 0 initialImagePart
    initialImagePart.inlineData.data

/-- C4: every frame issues at most 3 attempts, and the waits actually
performed before its retries are exactly the prefix `[2000, 4000]` of
the doubling schedule determined by the attempt count: no wait before a
frame that ends on its 1st attempt, a 2000 ms wait before the 2nd and a
4000 ms wait before the 3rd; after a 3rd failed attempt no further
request is issued for that frame. -/
theorem claim_C4_backoff (beh : Nat → Nat → GenResult)
    (initialImagePart : ImagePart) (prompts : List α) (k : Nat) (t : FrameTrace)
    (hk : ((generateFrames beh initialImagePart prompts).2)[k]? = some t) :
    t.attempts ≤ 3 ∧ t.waits = [2000, 4000].take (t.attempts - 1) := by
  simp only [generateFrames] at hk
  rcases generateFramesAux_attempts beh prompts 0 initialImagePart
      initialImagePart.inlineData.data k t hk with ⟨ha, hw⟩ | ⟨ha, hw⟩ | ⟨ha, hw⟩ <;>
    simp [ha, hw]

/-- Witness for C4 at a concrete run: one prompt, every request
rate-limited, giving 3 attempts and waits `[2000, 4000]`. -/
theorem claim_C4_backoff_witness :
    (⟨"orig", "orig", 3, [2000, 4000]⟩ : FrameTrace).attempts ≤ 3 ∧
      (⟨"orig", "orig", 3, [2000, 4000]⟩ : FrameTrace).waits =
        [2000, 4000].take ((⟨"orig", "orig", 3, [2000, 4000]⟩ : FrameTrace).attempts - 1) :=
  claim_C4_backoff (fun _ _ => GenResult.err "429")
    (base64ToGenerativePart "orig" "image/png") (["p"] : List String) 0
    ⟨"orig", "orig", 3, [2000, 4000]⟩ (by decide)

/-- C5: a first attempt failing with a message containing neither
`429` nor `RESOURCE_EXHAUSTED` ends the frame immediately: exactly one
request was issued, no backoff wait was performed, the frame's payload
is the fallback (previous frame's payload, or the original image's data
for the first frame), and the chain still returns one frame per prompt
rather than failing as a whole. -/
theorem claim_C5_nonratelimit_fallback (beh : Nat → Nat → GenResult)
    (initialImagePart : ImagePart) (prompts : List α) (k : Nat) (msg : String)
    (hk : k < prompts.length) (hb : beh k 0 = GenResult.err msg)
    (hr : isRateLimitMsg msg = false) :
    ((generateFrames beh initialImagePart prompts).2)[k]?.map FrameTrace.attempts = some 1 ∧
    ((generateFrames beh initialImagePart prompts).2)[k]?.map FrameTrace.waits = some [] ∧
    ((generateFrames beh initialImagePart prompts).1)[k]? =
      (if k = 0 then some initialImagePart.inlineData.data
        else ((generateFrames beh initialImagePart prompts).1)[k - 1]?) ∧
    (generateFrames beh initialImagePart prompts).1.length = prompts.length := by
  have hnr := generateFramesAux_nonrl beh prompts 0 initialImagePart
    initialImagePart.inlineData.data k msg hk (by simpa using hb) hr
  refine ⟨hnr.1, hnr.2, ?_, ?_⟩
  · exact generateFrames_fallback_eq beh initialImagePart prompts k hk
      (frameUnrecoverable_of_nonratelimit (beh k) msg hb hr)
  · exact generateFramesAux_length_fst beh prompts 0 initialImagePart
      initialImagePart.inlineData.data

/-- Witness for C5 at a concrete run: the second frame's first attempt
fails with a non-rate-limit message while the first frame succeeded. -/
theorem claim_C5_nonratelimit_fallback_witness :
    ((generateFrames (fun i _ => if i = 0 then GenResult.ok "f0" "image/png"
        else GenResult.err "boom")
        (base64ToGenerativePart "orig" "image/png") (["a", "b"] : List String)).2)[1]?.map
        FrameTrace.attempts = some 1 ∧
    ((generateFrames (fun i _ => if i = 0 then GenResult.ok "f0" "image/png"
        else GenResult.err "boom")
        (base64ToGenerativePart "orig" "image/png") (["a", "b"] : List String)).2)[1]?.map
        FrameTrace.waits = some [] ∧
    ((generateFrames (fun i _ => if i = 0 then GenResult.ok "f0" "image/png"
        else GenResult.err "boom")
        (base64ToGenerativePart "orig" "image/png") (["a", "b"] : List String)).1)[1]? =
      (if 1 = 0 then some (base64ToGenerativePart "orig" "image/png").inlineData.data
        else ((generateFrames (fun i _ => if i = 0 then GenResult.ok "f0" "image/png"
          else GenResult.err "boom")
          (base64ToGenerativePart "orig" "image/png") (["a", "b"] : List String)).1)[1 - 1]?) ∧
    (generateFrames (fun i _ => if i = 0 then GenResult.ok "f0" "image/png"
        else GenResult.err "boom")
        (base64ToGenerativePart "orig" "image/png")
        (["a", "b"] : List String)).1.length = (["a", "b"] : List String).length :=
  claim_C5_nonratelimit_fallback
    (fun i _ => if i = 0 then GenResult.ok "f0" "image/png" else GenResult.err "boom")
    (base64ToGenerativePart "orig" "image/png") (["a", "b"] : List String) 1 "boom"
    (by decide) (by decide) (by decide)

/-- C10: loop invariant of the frame chain. At the start of every
iteration the current chain image's data equals `lastSuccessfulBase64`
(initially the original image's data), and every emitted frame's
payload is exactly the chain image fed as input to the next frame's
request, on the success and the fallback path alike. -/
theorem claim_C10_chain_invariant (beh : Nat → Nat → GenResult)
    (initialImagePart : ImagePart) (prompts : List α) :
    (∀ j : Nat,
      ((generateFrames beh initialImagePart prompts).2)[j]?.map FrameTrace.input =
        ((generateFrames beh initialImagePart prompts).2)[j]?.map FrameTrace.lastAtStart) ∧
    (0 < prompts.length →
      ((generateFrames beh initialImagePart prompts).2)[0]?.map FrameTrace.input =
        some initialImagePart.inlineData.data) ∧
    (∀ j : Nat, j + 1 < prompts.length →
      ((generateFrames beh initialImagePart prompts).2)[j + 1]?.map FrameTrace.input =
        ((generateFrames beh initialImagePart prompts).1)[j]?) := by
  simp only [generateFrames]
  refine ⟨fun j => ?_, fun h => ?_, fun j hj => ?_⟩
  · exact (generateFramesAux_lastAtStart beh prompts 0 initialImagePart
      initialImagePart.inlineData.data j rfl).symm
  · cases prompts with
    | nil => simp at h
    | cons p rest =>
      exact generateFramesAux_input_zero beh p rest 0 initialImagePart
        initialImagePart.inlineData.data
  · exact generateFramesAux_input_succ beh prompts 0 initialImagePart
      initialImagePart.inlineData.data j hj

/-- Witness for C10 at a concrete run with a success and a fallback:
the invariant's three parts hold on an inspectable trace. -/
theorem claim_C10_chain_invariant_witness :
    (∀ j : Nat,
      ((generateFrames (fun i _ => if i = 0 then GenResult.ok "f0" "image/png"
          else GenResult.err "boom")
          (base64ToGenerativePart "orig" "image/png") (["a", "b"] : List String)).2)[j]?.map
          FrameTrace.input =
        ((generateFrames (fun i _ => if i = 0 then GenResult.ok "f0" "image/png"
          else GenResult.err "boom")
          (base64ToGenerativePart "orig" "image/png") (["a", "b"] : List String)).2)[j]?.map
          FrameTrace.lastAtStart) ∧
    (0 < (["a", "b"] : List String).length →
      ((generateFrames (fun i _ => if i = 0 then GenResult.ok "f0" "image/png"
          else GenResult.err "boom")
          (base64ToGenerativePart "orig" "image/png") (["a", "b"] : List String)).2)[0]?.map
          FrameTrace.input =
        some (base64ToGenerativePart "orig" "image/png").inlineData.data) ∧
    (∀ j : Nat, j + 1 < (["a", "b"] : List String).length →
      ((generateFrames (fun i _ => if i = 0 then GenResult.ok "f0" "image/png"
          else GenResult.err "boom")
          (base64ToGenerativePart "orig" "image/png") (["a", "b"] : List String)).2)[j + 1]?.map
          FrameTrace.input =
        ((generateFrames (fun i _ => if i = 0 then GenResult.ok "f0" "image/png"
          else GenResult.err "boom")
          (base64ToGenerativePart "orig" "image/png") (["a", "b"] : List String)).1)[j]?) :=
  claim_C10_chain_invariant
    (fun i _ => if i = 0 then GenResult.ok "f0" "image/png" else GenResult.err "boom")
    (base64ToGenerativePart "orig" "image/png") (["a", "b"] : List String)

/-- JSON values as `JSON.parse` produces them. Numbers are exact
rationals: the code never computes with parsed numbers, so the float
rounding `JSON.parse` would apply is observable in none of the
properties stated below. -/
inductive Json where
  | null
  | bool (b : Bool)
  | num (q : ℚ)
  | str (s : String)
  | arr (elems : List Json)
  | obj (members : List (String × Json))

/-- JSON whitespace. -/
def isJsonWs (c : Char) : Bool := c = ' ' || c = '\t' || c = '\n' || c = '\r'

/-- Drop leading JSON whitespace. -/
def skipWs : List Char → List Char
  | [] => []
  | c :: rest => if isJsonWs c then skipWs rest else c :: rest

/-- Value of a hexadecimal digit. -/
def hexVal (c : Char) : Option Nat :=
  if '0' ≤ c ∧ c ≤ '9' then some (c.toNat - '0'.toNat)
  else if 'a' ≤ c ∧ c ≤ 'f' then some (c.toNat - 'a'.toNat + 10)
  else if 'A' ≤ c ∧ c ≤ 'F' then some (c.toNat - 'A'.toNat + 10)
  else none

/-- Body of a JSON string after the opening quote: the decoded
characters and the text after the closing quote. Strict: control
characters must be escaped, only the JSON escapes are accepted. -/
def parseStringBody : Nat → List Char → Option (List Char × List Char)
  | 0, _ => none
  | _, [] => none
  | fuel + 1, c :: rest =>
    if c = '"' then some ([], rest)
    else if c = '\\' then
      match rest with
      | [] => none
      | e :: rest2 =>
        if e = 'u' then
          match rest2 with
          | h1 :: h2 :: h3 :: h4 :: rest3 =>
            match hexVal h1, hexVal h2, hexVal h3, hexVal h4 with
            | some a, some b, some c3, some d =>
              (parseStringBody fuel rest3).map
                (fun p => (Char.ofNat (((a * 16 + b) * 16 + c3) * 16 + d) :: p.1, p.2))
            | _, _, _, _ => none
          | _ => none
        else
          let dec : Option Char :=
            if e = '"' then some '"'
            else if e = '\\' then some '\\'
            else if e = '/' then some '/'
            else if e = 'b' then some '\x08'
            else if e = 'f' then some '\x0c'
            else if e = 'n' then some '\n'
            else if e = 'r' then some '\r'
            else if e = 't' then some '\t'
            else none
          match dec with
          | none => none
          | some d => (parseStringBody fuel rest2).map (fun p => (d :: p.1, p.2))
    else if c.toNat < 0x20 then none
    else (parseStringBody fuel rest).map (fun p => (c :: p.1, p.2))

/-- Consume a run of decimal digits: value, digit count, rest. -/
def parseDigitsAux : List Char → Nat → Nat → Nat × Nat × List Char
  | [], acc, n => (acc, n, [])
  | c :: rest, acc, n =>
    if '0' ≤ c ∧ c ≤ '9' then
      parseDigitsAux rest (acc * 10 + (c.toNat - '0'.toNat)) (n + 1)
    else (acc, n, c :: rest)

/-- Consume a run of decimal digits starting fresh. -/
def parseDigits (l : List Char) : Nat × Nat × List Char := parseDigitsAux l 0 0

/-- Optional fraction part `(\.[0-9]+)?`: value, digit count, rest. -/
def parseFrac : List Char → Option (Nat × Nat × List Char)
  | '.' :: rest =>
    let p := parseDigits rest
    if p.2.1 = 0 then none else some p
  | l => some (0, 0, l)

/-- Optional exponent part `([eE][+-]?[0-9]+)?`: sign (true for
negative), value, rest. -/
def parseExp : List Char → Option (Bool × Nat × List Char)
  | c :: rest =>
    if c = 'e' ∨ c = 'E' then
      let sr : Bool × List Char :=
        match rest with
        | '+' :: r => (false, r)
        | '-' :: r => (true, r)
        | r => (false, r)
      let p := parseDigits sr.2
      if p.2.1 = 0 then none else some (sr.1, p.1, p.2.2)
    else some (false, 0, c :: rest)
  | [] => some (false, 0, [])

/-- JSON number grammar `-?(0|[1-9][0-9]*)(\.[0-9]+)?([eE][+-]?[0-9]+)?`,
evaluated exactly. -/
def parseNumber (l : List Char) : Option (ℚ × List Char) :=
  let nl : Bool × List Char :=
    match l with
    | '-' :: rest => (true, rest)
    | _ => (false, l)
  let ip := parseDigits nl.2
  if ip.2.1 = 0 then none
  else if 1 < ip.2.1 ∧ nl.2.head? = some '0' then none
  else
    match parseFrac ip.2.2 with
    | none => none
    | some (fv, fc, l3) =>
      match parseExp l3 with
      | none => none
      | some (en, ev, l4) =>
        let mant : ℚ := (ip.1 : ℚ) + (fv : ℚ) / ((10 : ℚ) ^ fc)
        let mant : ℚ := if nl.1 then -mant else mant
        let q : ℚ := if en then mant / ((10 : ℚ) ^ ev) else mant * ((10 : ℚ) ^ ev)
        some (q, l4)

mutual

/-- One JSON value and the remaining text. `fuel` only bounds the
recursion; `jsonParse` passes enough for any input. -/
def parseValue : Nat → List Char → Option (Json × List Char)
  | 0, _ => none
  | fuel + 1, s =>
    match skipWs s with
    | 'n' :: 'u' :: 'l' :: 'l' :: rest => some (.null, rest)
    | 't' :: 'r' :: 'u' :: 'e' :: rest => some (.bool true, rest)
    | 'f' :: 'a' :: 'l' :: 's' :: 'e' :: rest => some (.bool false, rest)
    | '"' :: rest =>
      (parseStringBody (rest.length + 1) rest).map
        (fun p => (.str (String.mk p.1), p.2))
    | '[' :: rest =>
      match skipWs rest with
      | ']' :: rest2 => some (.arr [], rest2)
      | rest2 => (parseElems fuel rest2).map (fun p => (.arr p.1, p.2))
    | '\x7b' :: rest =>
      match skipWs rest with
      | '\x7d' :: rest2 => some (.obj [], rest2)
      | rest2 => (parseMembers fuel rest2).map (fun p => (.obj p.1, p.2))
    | s2 => (parseNumber s2).map (fun p => (.num p.1, p.2))

/-- Comma-separated JSON values up to a closing `]`. -/
def parseElems : Nat → List Char → Option (List Json × List Char)
  | 0, _ => none
  | fuel + 1, s =>
    match parseValue fuel s with
    | none => none
    | some (v, r) =>
      match skipWs r with
      | ',' :: r2 => (parseElems fuel r2).map (fun p => (v :: p.1, p.2))
      | ']' :: r2 => some ([v], r2)
      | _ => none

/-- Comma-separated `"key": value` members up to a closing brace. -/
def parseMembers : Nat → List Char → Option (List (String × Json) × List Char)
  | 0, _ => none
  | fuel + 1, s =>
    match skipWs s with
    | '"' :: rest =>
      match parseStringBody (rest.length + 1) rest with
      | none => none
      | some (key, r) =>
        match skipWs r with
        | ':' :: r2 =>
          match parseValue fuel r2 with
          | none => none
          | some (v, r3) =>
            match skipWs r3 with
            | ',' :: r4 =>
              (parseMembers fuel r4).map
                (fun p => ((String.mk key, v) :: p.1, p.2))
            | '\x7d' :: r4 => some ([(String.mk key, v)], r4)
            | _ => none
        | _ => none
    | _ => none

end

/-- `JSON.parse`: one value, surrounding whitespace allowed, trailing
text rejected. The fuel `2 * length + 2` dominates the recursion depth
(each descent into `parseValue`/`parseElems`/`parseMembers` consumes at
least one character per two fuel units), so no parse is cut short. -/
def jsonParse (s : String) : Option Json :=
  match parseValue (2 * s.length + 2) s.data with
  | some (v, rest) => if skipWs rest = [] then some v else none
  | none => none

/-- Opening of the fenced alternative of the extraction regexes
(src/index.tsx lines 437 and 469). -/
def fenceOpen : List Char := ['\x60', '\x60', '\x60', 'j', 's', 'o', 'n', '\n']

/-- Closing delimiter of the fenced alternative. -/
def fenceClose : List Char := ['\n', '\x60', '\x60', '\x60']

/-- First index of `c` in `l`. -/
def idxOf (c : Char) (l : List Char) : Option Nat := findSubIdx [c] l

/-- The fenced alternative at one start position: the text
must start with the fence opening, and group 1 is the lazily-minimal
interior up to the first closing delimiter. -/
def matchFence (l : List Char) : Option (List Char) :=
  if fenceOpen.isPrefixOf l then
    (findSubIdx fenceClose (l.drop 8)).map (fun k => (l.drop 8).take k)
  else none

/-- The bare alternative `\[[\s\S]*?\]` of the prompts regex at one
start position: from a `[` lazily to the nearest following `]`. -/
def matchBarePrompts (l : List Char) : Option (List Char) :=
  match l with
  | [] => none
  | c :: r =>
    if c = '[' then (idxOf ']' r).map (fun k => '[' :: (r.take k ++ [']']))
    else none

/-- Length of the run matched by `.` (which excludes line terminators)
at the front of `l`. -/
def lineLen : List Char → Nat
  | [] => 0
  | c :: rest => if c = '\n' ∨ c = '\r' then 0 else lineLen rest + 1

/-- One placement of the greedy `.*` of `{.*}`: the `}` sits at index
`j` of `r2` (the text after the `{`), and the lazy continuation
`[\s\S]*?\]` takes the nearest later `]`, whose index is returned. -/
def braceTryAt (r2 : List Char) (j : Nat) : Option Nat :=
  if r2[j]? = some '\x7d' then
    (idxOf ']' (r2.drop (j + 1))).map (fun m => j + 1 + m)
  else none

/-- Backtracking of the greedy `.*`: try the longest placement first,
scanning `j` downward from the line length. -/
def closeBraceScan (r2 : List Char) : Nat → Option Nat
  | 0 => braceTryAt r2 0
  | j + 1 =>
    match braceTryAt r2 (j + 1) with
    | some e => some e
    | none => closeBraceScan r2 j

/-- The lazy `[\s\S]*?` before `{`: successive `{` positions of `full`
(from offset `off`) are tried until the greedy-brace continuation
succeeds; returns the index in `full` of the match's final `]`. `fuel`
bounds the walk and callers pass the text length, which the offset
never exceeds. -/
def braceSearch : Nat → Nat → List Char → Option Nat
  | 0, _, _ => none
  | fuel + 1, off, full =>
    match idxOf '\x7b' (full.drop off) with
    | none => none
    | some k =>
      let r2 := full.drop (off + k + 1)
      match closeBraceScan r2 (lineLen r2) with
      | some e => some (off + k + 1 + e)
      | none => braceSearch fuel (off + k + 1) full

/-- The bare alternative `\[[\s\S]*?{.*}[\s\S]*?\]` of the detect regex
at one start position. -/
def matchBareDetect (l : List Char) : Option (List Char) :=
  match l with
  | [] => none
  | c :: r =>
    if c = '[' then (braceSearch (r.length + 1) 0 r).map (fun e => '[' :: r.take (e + 1))
    else none

/-- Which alternative of `fenced|bare` matched: the capture groups of
the extraction regexes. -/
inductive RegexMatch where
  | fenced (interior : List Char)
  | bare (matched : List Char)
deriving DecidableEq, Repr

/-- Leftmost match of the two-alternative regex: start positions are
tried left to right, and at each position the fenced alternative is
tried before the bare one (JavaScript alternation order). -/
def regexScan (bareM : List Char → Option (List Char)) : List Char → Option RegexMatch
  | [] => none
  | c :: rest =>
    match matchFence (c :: rest) with
    | some interior => some (.fenced interior)
    | none =>
      match bareM (c :: rest) with
      | some m => some (.bare m)
      | none => regexScan bareM rest

/-- `jsonText` after the extraction step (src/index.tsx lines 434-440
and 466-472), i.e. `jsonMatch ? (jsonMatch[1] || jsonMatch[2]) : text`:
the fenced interior when group 1 matched non-empty (an empty group 1 is
falsy in JS, leaving the undefined group 2 — `JSON.parse(undefined)`
then fails, modelled as `none`), the bare match when group 2 matched,
and the whole trimmed text when the regex found no match. -/
def extractCandidate (bareM : List Char → Option (List Char)) (t : List Char) :
    Option (List Char) :=
  match regexScan bareM t with
  | none => some t
  | some (.fenced interior) => if interior = [] then none else some interior
  | some (.bare m) => some m

/-- Whitespace removed by JavaScript's `String.prototype.trim`
(the ASCII part plus NBSP and BOM, which cover every response text
considered here). -/
def isJsTrimWs (c : Char) : Bool :=
  c = ' ' || c = '\t' || c = '\n' || c = '\r' || c = '\x0b' || c = '\x0c' ||
    c = '\u00a0' || c = '\ufeff'

/-- `response.text.trim()` (src/index.tsx lines 434 and 466). -/
def jsTrim (s : String) : String :=
  String.mk (((s.data.dropWhile isJsTrimWs).reverse.dropWhile isJsTrimWs).reverse)

/-- Error message of src/index.tsx line 447. -/
def detectInvalidMsg : String :=
  "Received an invalid response from the AI when detecting objects. Please try a different image."

/-- Error message of src/index.tsx line 451. -/
def detectFormatMsg : String := "Failed to detect objects in the required format."

/-- Error message of src/index.tsx line 479. -/
def promptsInvalidMsg : String :=
  "Received an invalid response from the AI when generating prompts."

/-- Error message of src/index.tsx line 483. -/
def promptsFormatMsg : String := "Failed to generate prompts in the required format."

/-- Error message of src/index.tsx line 384. -/
def noObjectsMsg : String :=
  "Sorry, no distinct objects could be identified in the image. Please try another one."

/-- The response-processing tail of `detectObjects` (src/index.tsx
lines 434-453) as a function of the service's text response: trim,
extract, `JSON.parse`, then require an array (with no further
validation of its contents). -/
def detectObjects (responseText : String) : Except String (List Json) :=
  match extractCandidate matchBareDetect (jsTrim responseText).data with
  | none => .error detectInvalidMsg
  | some c =>
    match jsonParse (String.mk c) with
    | none => .error detectInvalidMsg
    | some (.arr xs) => .ok xs
    | some _ => .error detectFormatMsg

/-- The response-processing tail of `generatePrompts` (src/index.tsx
lines 466-485): trim, extract, `JSON.parse`, then require a non-empty
array (with no validation of its length against
`NUM_FRAMES_TO_GENERATE` or of its elements). -/
def generatePrompts (responseText : String) : Except String (List Json) :=
  match extractCandidate matchBarePrompts (jsTrim responseText).data with
  | none => .error promptsInvalidMsg
  | some c =>
    match jsonParse (String.mk c) with
    | none => .error promptsInvalidMsg
    | some (.arr []) => .error promptsFormatMsg
    | some (.arr xs) => .ok xs
    | some _ => .error promptsFormatMsg

/-- The extracted-and-parsed content of a detect response, before the
array check. -/
def detectParsed (t : String) : Option Json :=
  (extractCandidate matchBareDetect (jsTrim t).data).bind (fun c => jsonParse (String.mk c))

/-- The extracted-and-parsed content of a prompts response, before the
array checks. -/
def promptsParsed (t : String) : Option Json :=
  (extractCandidate matchBarePrompts (jsTrim t).data).bind (fun c => jsonParse (String.mk c))

/-- Outcome of `runObjectDetection` (src/index.tsx lines 373-393) as
the resulting component state: detection completed with the object list
and default selection, or an error message was set. -/
inductive DetectionOutcome where
  | completed (objects : List Json) (selected : Json)
  | failed (message : String)

/-- `runObjectDetection` (src/index.tsx lines 373-393) as a function of
the detect response: a thrown error's message is shown; an empty object
list is reported as a failure, never as a success; otherwise detection
completes with the first object selected by default. -/
def runObjectDetection (responseText : String) : DetectionOutcome :=
  match detectObjects responseText with
  | .error msg => .failed msg
  | .ok [] => .failed noObjectsMsg
  | .ok (o :: rest) => .completed (o :: rest) o

/-- The success path of `handleGenerateAnimation` (src/index.tsx lines
402-412) from the prompt-generation response on: prompts are generated,
the chain runs, and the presented state is the prompt list with
"Original Image" prepended paired with the frame list with the original
image's data prepended. A prompt-generation failure propagates as the
displayed error. -/
def handleGenerateAnimation (beh : Nat → Nat → GenResult) (imagePart : ImagePart)
    (promptsResponseText : String) : Except String (List Json × List String) :=
  match generatePrompts promptsResponseText with
  | .error e => .error e
  | .ok prompts =>
    .ok (Json.str "Original Image" :: prompts,
      imagePart.inlineData.data :: (generateFrames beh imagePart prompts).1)

/-- A position not starting with a backtick cannot start the fenced
alternative. -/
theorem matchFence_none_of_head (l : List Char) (h : l.head? ≠ some '\x60') :
    matchFence l = none := by
  unfold matchFence
  cases l with
  | nil => simp [fenceOpen, List.isPrefixOf]
  | cons c rest =>
    have hc : ('\x60' == c) = false := by
      simp only [List.head?_cons, ne_eq, Option.some.injEq] at h
      simp [beq_iff_eq]
      exact fun he => h he.symm
    simp [fenceOpen, List.isPrefixOf, hc]

/-- A position not starting with `[` cannot start the prompts bare
alternative. -/
theorem matchBarePrompts_none_of_head (l : List Char) (h : l.head? ≠ some '[') :
    matchBarePrompts l = none := by
  cases l with
  | nil => rfl
  | cons c rest =>
    have hc : ¬ c = '[' := by
      simp only [List.head?_cons, ne_eq, Option.some.injEq] at h
      exact h
    simp [matchBarePrompts, hc]

/-- A position not starting with `[` cannot start the detect bare
alternative. -/
theorem matchBareDetect_none_of_head (l : List Char) (h : l.head? ≠ some '[') :
    matchBareDetect l = none := by
  cases l with
  | nil => rfl
  | cons c rest =>
    have hc : ¬ c = '[' := by
      simp only [List.head?_cons, ne_eq, Option.some.injEq] at h
      exact h
    simp [matchBareDetect, hc]

/-- Scanning skips a prefix at whose positions neither alternative can
start. -/
theorem regexScan_append_of_no_match (bareM : List Char → Option (List Char))
    (hb : ∀ l : List Char, l.head? ≠ some '[' → bareM l = none)
    (pre rest : List Char) (hpre : ∀ c ∈ pre, c ≠ '\x60' ∧ c ≠ '[') :
    regexScan bareM (pre ++ rest) = regexScan bareM rest := by
  induction pre with
  | nil => rfl
  | cons c pre2 ih =>
    have hc := hpre c (List.mem_cons_self c pre2)
    have hf : matchFence (c :: (pre2 ++ rest)) = none :=
      matchFence_none_of_head _ (by simp [hc.1])
    have hbm : bareM (c :: (pre2 ++ rest)) = none := hb _ (by simp [hc.2])
    rw [List.cons_append]
    simp only [regexScan, hf, hbm]
    exact ih (fun d hd => hpre d (List.mem_cons_of_mem c hd))

/-- A position where the fenced alternative matches makes the scan
report it (the alternation tries it first). -/
theorem regexScan_of_fence (bareM : List Char → Option (List Char))
    (l interior : List Char) (h : matchFence l = some interior) :
    regexScan bareM l = some (.fenced interior) := by
  cases l with
  | nil =>
    exfalso
    unfold matchFence at h
    simp [fenceOpen, List.isPrefixOf] at h
  | cons c rest => simp [regexScan, h]

/-- A position where only the bare alternative matches makes the scan
report it. -/
theorem regexScan_of_bare (bareM : List Char → Option (List Char))
    (l m : List Char) (hf : matchFence l = none) (hb : bareM l = some m)
    (hne : l ≠ []) : regexScan bareM l = some (.bare m) := by
  cases l with
  | nil => exact absurd rfl hne
  | cons c rest => simp [regexScan, hf, hb]

/-- `findSubIdx` finds the needle at the junction when no earlier
position carries it. -/
theorem findSubIdx_append (needle pre post : List Char) (hne : needle ≠ [])
    (hpre : ∀ i, i < pre.length →
      needle.isPrefixOf ((pre ++ (needle ++ post)).drop i) = false) :
    findSubIdx needle (pre ++ (needle ++ post)) = some pre.length := by
  induction pre with
  | nil =>
    cases needle with
    | nil => exact absurd rfl hne
    | cons n ns =>
      have hp : (n :: ns).isPrefixOf (n :: (ns ++ post)) = true := by
        rw [← List.cons_append]
        exact List.isPrefixOf_iff_prefix.mpr (List.prefix_append (n :: ns) post)
      show findSubIdx (n :: ns) (n :: (ns ++ post)) = some 0
      simp only [findSubIdx]
      rw [if_pos hp]
  | cons c pre2 ih =>
    have h0 := hpre 0 (by simp)
    rw [List.cons_append] at h0 ⊢
    simp only [List.drop_zero] at h0
    simp only [findSubIdx, h0, Bool.false_eq_true, if_false, List.length_cons]
    rw [ih (fun i hi => by
      have := hpre (i + 1) (by simpa using hi)
      simpa using this)]
    rfl

/-- With no backtick in the interior, the closing delimiter first
occurs exactly at the junction. -/
theorem fenceClose_not_early (interior post : List Char) (hi : '\x60' ∉ interior) :
    ∀ i, i < interior.length →
      fenceClose.isPrefixOf ((interior ++ (fenceClose ++ post)).drop i) = false := by
  intro i hlt
  by_contra hcon
  have hpref : fenceClose <+: (interior ++ (fenceClose ++ post)).drop i :=
    List.isPrefixOf_iff_prefix.mp (by
      cases hx : fenceClose.isPrefixOf ((interior ++ (fenceClose ++ post)).drop i) with
      | true => rfl
      | false => exact absurd hx hcon)
  obtain ⟨t, ht⟩ := hpref
  have h1 : ((interior ++ (fenceClose ++ post)).drop i)[1]? = some '\x60' := by
    rw [← ht]; rfl
  rw [List.getElem?_drop] at h1
  rcases Nat.lt_or_ge (i + 1) interior.length with hcase | hcase
  · rw [List.getElem?_append_left hcase] at h1
    obtain ⟨hlt2, hget⟩ := List.getElem?_eq_some.mp h1
    exact hi (hget ▸ interior.getElem_mem hlt2)
  · have heq : i + 1 = interior.length := Nat.le_antisymm (by omega) hcase
    rw [List.getElem?_append_right hcase, heq, Nat.sub_self] at h1
    simp [fenceClose] at h1

/-- The fenced alternative at its own start position captures exactly
the interior (the lazy group stops at the first closing delimiter,
which a backtick-free interior cannot contain). -/
theorem matchFence_exact (interior post : List Char) (hi : '\x60' ∉ interior) :
    matchFence (fenceOpen ++ (interior ++ (fenceClose ++ post))) = some interior := by
  unfold matchFence
  have hp : fenceOpen.isPrefixOf (fenceOpen ++ (interior ++ (fenceClose ++ post))) :=
    List.isPrefixOf_iff_prefix.mpr (List.prefix_append _ _)
  rw [if_pos hp]
  have hdrop : (fenceOpen ++ (interior ++ (fenceClose ++ post))).drop 8 =
      interior ++ (fenceClose ++ post) := by
    have : fenceOpen.length = 8 := rfl
    rw [← this, List.drop_left]
  rw [hdrop, findSubIdx_append fenceClose interior post (by decide)
    (fenceClose_not_early interior post hi)]
  simp [List.take_left]

/-- `idxOf` finds the first occurrence at the junction. -/
theorem idxOf_append (c : Char) (mid post : List Char) (h : c ∉ mid) :
    idxOf c (mid ++ (c :: post)) = some mid.length := by
  induction mid with
  | nil =>
    simp only [List.nil_append, idxOf, findSubIdx, List.isPrefixOf, beq_self_eq_true,
      Bool.and_self, List.length_nil]
    rfl
  | cons d mid2 ih =>
    have hd : (c == d) = false := by
      simp only [beq_eq_false_iff_ne, ne_eq]
      intro he
      exact h (he ▸ List.mem_cons_self d mid2)
    have ih2 := ih (fun hm => h (List.mem_cons_of_mem d hm))
    rw [List.cons_append]
    simp only [idxOf, findSubIdx, List.isPrefixOf, hd, Bool.false_and, Bool.false_eq_true,
      if_false] at ih2 ⊢
    rw [ih2]
    rfl

/-- The prompts bare alternative at its own start position: the lazy
quantifier stops at the first `]`. -/
theorem matchBarePrompts_exact (mid post : List Char) (hmid : ']' ∉ mid) :
    matchBarePrompts ('[' :: (mid ++ (']' :: post))) = some ('[' :: (mid ++ [']'])) := by
  have htake : (mid ++ (']' :: post)).take mid.length = mid := by
    rw [List.take_append_eq_append_take]
    simp
  simp [matchBarePrompts, idxOf_append ']' mid post hmid, htake]

/-- Candidate selection when a fenced block is the leftmost match:
positions before it offer neither alternative a start, so the fenced
interior is extracted. -/
theorem extractCandidate_fenced (bareM : List Char → Option (List Char))
    (hb : ∀ l : List Char, l.head? ≠ some '[' → bareM l = none)
    (pre interior post : List Char)
    (hpre : ∀ c ∈ pre, c ≠ '\x60' ∧ c ≠ '[') (hi : '\x60' ∉ interior)
    (hne : interior ≠ []) :
    extractCandidate bareM (pre ++ (fenceOpen ++ (interior ++ (fenceClose ++ post)))) =
      some interior := by
  unfold extractCandidate
  rw [regexScan_append_of_no_match bareM hb pre _ hpre,
    regexScan_of_fence bareM _ interior (matchFence_exact interior post hi)]
  simp [hne]

/-- Candidate selection when a bare `[...]` is the leftmost match for
the prompts regex: the match runs lazily to the first `]`. -/
theorem extractCandidate_barePrompts (pre mid post : List Char)
    (hpre : ∀ c ∈ pre, c ≠ '\x60' ∧ c ≠ '[') (hmid : ']' ∉ mid) :
    extractCandidate matchBarePrompts (pre ++ ('[' :: (mid ++ (']' :: post)))) =
      some ('[' :: (mid ++ [']'])) := by
  unfold extractCandidate
  rw [regexScan_append_of_no_match matchBarePrompts matchBarePrompts_none_of_head pre _ hpre,
    regexScan_of_bare matchBarePrompts _ _
      (matchFence_none_of_head _
        (by simp only [List.head?_cons, ne_eq, Option.some.injEq]; decide))
      (matchBarePrompts_exact mid post hmid) (by simp)]

/-- A candidate that fails to parse makes `generatePrompts` raise the
invalid-response error. -/
theorem generatePrompts_error_of_parse_fail (t : String) (c : List Char)
    (hc : extractCandidate matchBarePrompts (jsTrim t).data = some c)
    (hp : jsonParse (String.mk c) = none) :
    generatePrompts t = .error promptsInvalidMsg := by
  unfold generatePrompts
  simp [hc, hp]

/-- A candidate that fails to parse makes `detectObjects` raise the
invalid-response error. -/
theorem detectObjects_error_of_parse_fail (t : String) (c : List Char)
    (hc : extractCandidate matchBareDetect (jsTrim t).data = some c)
    (hp : jsonParse (String.mk c) = none) :
    detectObjects t = .error detectInvalidMsg := by
  unfold detectObjects
  simp [hc, hp]

/-- C3 counterexample: in the text below a JSON array is wrapped in a
fenced block labeled json, yet the extraction step of the prompts
parser does not take the fenced interior `[2]`: the bare-array
alternative matches earlier in the text and the leftmost match wins, so
`[1]` is extracted and parsed. The claimed fence-first preference order
does not hold. -/
theorem claim_C3_counterexample :
    extractCandidate matchBarePrompts (jsTrim "[1] ```json\n[2]\n```").data =
        some ['[', '1', ']'] ∧
      (['[', '1', ']'] : List Char) ≠ ['[', '2', ']'] ∧
      (generatePrompts "[1] ```json\n[2]\n```").map List.length = Except.ok 1 := by
  refine ⟨by rfl, by decide, by rfl⟩

/-- C3 (amended): extraction takes the leftmost regex match, trying at
each position the fenced alternative before the bare one. When the
leftmost match is a fenced block labeled json (no `[` or backtick
occurs before it, and the backtick-free non-empty interior makes the
lazy group stop at its own closing fence), the fenced interior is taken
exactly — for the detect and the prompts parser alike. When the
leftmost match is a bare array (prompts parser), the match runs from
the `[` lazily to the first following `]`, balanced or not. When the
chosen candidate fails strict JSON parsing, the operation raises its
malformed-response error rather than substituting a default. -/
theorem claim_C3_extraction_amended :
    (∀ pre interior post : List Char,
      (∀ c ∈ pre, c ≠ '\x60' ∧ c ≠ '[') → '\x60' ∉ interior → interior ≠ [] →
      extractCandidate matchBarePrompts
          (pre ++ (fenceOpen ++ (interior ++ (fenceClose ++ post)))) = some interior ∧
        extractCandidate matchBareDetect
          (pre ++ (fenceOpen ++ (interior ++ (fenceClose ++ post)))) = some interior) ∧
    (∀ pre mid post : List Char,
      (∀ c ∈ pre, c ≠ '\x60' ∧ c ≠ '[') → ']' ∉ mid →
      extractCandidate matchBarePrompts (pre ++ ('[' :: (mid ++ (']' :: post)))) =
        some ('[' :: (mid ++ [']']))) ∧
    (∀ (t : String) (c : List Char),
      extractCandidate matchBarePrompts (jsTrim t).data = some c →
      jsonParse (String.mk c) = none → generatePrompts t = .error promptsInvalidMsg) ∧
    (∀ (t : String) (c : List Char),
      extractCandidate matchBareDetect (jsTrim t).data = some c →
      jsonParse (String.mk c) = none → detectObjects t = .error detectInvalidMsg) := by
  refine ⟨fun pre interior post hpre hi hne => ⟨?_, ?_⟩,
    extractCandidate_barePrompts, generatePrompts_error_of_parse_fail,
    detectObjects_error_of_parse_fail⟩
  · exact extractCandidate_fenced matchBarePrompts matchBarePrompts_none_of_head
      pre interior post hpre hi hne
  · exact extractCandidate_fenced matchBareDetect matchBareDetect_none_of_head
      pre interior post hpre hi hne

/-- Witness for the amended C3 on concrete inputs: a fenced interior is
taken after prose, a bare array is taken lazily after prose, and an
unparseable candidate raises each parser's error. -/
theorem claim_C3_extraction_amended_witness :
    (extractCandidate matchBarePrompts
        ("x: ".data ++ (fenceOpen ++ ("[3]".data ++ (fenceClose ++ " done".data)))) =
      some "[3]".data ∧
    extractCandidate matchBareDetect
        ("x: ".data ++ (fenceOpen ++ ("[3]".data ++ (fenceClose ++ " done".data)))) =
      some "[3]".data) ∧
    extractCandidate matchBarePrompts
        ("ok ".data ++ ('[' :: ("1,2".data ++ (']' :: " rest".data)))) =
      some ('[' :: ("1,2".data ++ [']'])) ∧
    generatePrompts "@@@" = .error promptsInvalidMsg ∧
    detectObjects "@@@" = .error detectInvalidMsg :=
  ⟨(claim_C3_extraction_amended.1 "x: ".data "[3]".data " done".data
      (by decide) (by decide) (by decide)),
    claim_C3_extraction_amended.2.1 "ok ".data "1,2".data " rest".data
      (by decide) (by decide),
    claim_C3_extraction_amended.2.2.1 "@@@" "@@@".data (by rfl) (by rfl),
    claim_C3_extraction_amended.2.2.2 "@@@" "@@@".data (by rfl) (by rfl)⟩

/-- C6: a detect response whose parsed content is an empty array or not
an array never completes detection. The empty array is reported with
the no-objects message (src/index.tsx line 384), a non-array with the
format error (line 451), and a completed detection always carries a
non-empty object list. -/
theorem claim_C6_empty_detection (t : String) :
    (∀ (objs : List Json) (sel : Json),
      runObjectDetection t = .completed objs sel → objs ≠ []) ∧
    (detectParsed t = some (Json.arr []) →
      runObjectDetection t = .failed noObjectsMsg) ∧
    (∀ v : Json, detectParsed t = some v → (∀ xs : List Json, v ≠ Json.arr xs) →
      runObjectDetection t = .failed detectFormatMsg) := by
  refine ⟨?_, ?_, ?_⟩
  · intro objs sel h
    unfold runObjectDetection at h
    cases hd : detectObjects t with
    | error m => rw [hd] at h; cases h
    | ok xs =>
      rw [hd] at h
      cases xs with
      | nil => cases h
      | cons o rest =>
        have : objs = o :: rest := by
          cases h
          rfl
        simp [this]
  · intro hp
    unfold runObjectDetection detectObjects
    unfold detectParsed at hp
    cases hc : extractCandidate matchBareDetect (jsTrim t).data with
    | none => rw [hc] at hp; cases hp
    | some c =>
      rw [hc] at hp
      simp only [Option.some_bind] at hp
      simp [hc, hp]
  · intro v hp hv
    unfold runObjectDetection detectObjects
    unfold detectParsed at hp
    cases hc : extractCandidate matchBareDetect (jsTrim t).data with
    | none => rw [hc] at hp; cases hp
    | some c =>
      rw [hc] at hp
      simp only [Option.some_bind] at hp
      cases v with
      | arr xs => exact absurd rfl (hv xs)
      | null => simp [hc, hp]
      | bool b => simp [hc, hp]
      | num q => simp [hc, hp]
      | str s => simp [hc, hp]
      | obj ms => simp [hc, hp]

/-- Witness for C6: the empty-array response `[]` fails with the
no-objects message and the non-array response `null` fails with the
format error. -/
theorem claim_C6_empty_detection_witness :
    runObjectDetection "[]" = .failed noObjectsMsg ∧
      runObjectDetection "null" = .failed detectFormatMsg :=
  ⟨(claim_C6_empty_detection "[]").2.1 (by rfl),
    (claim_C6_empty_detection "null").2.2 Json.null (by rfl)
      (fun xs h => Json.noConfusion h)⟩

/-- C7 counterexample: the response `[1,2,3,4,5,6]` parses successfully
and `detectObjects` returns all 6 entries: the claimed 5-entry cap is
not enforced, and the entries are not even of the DetectedObject shape
(no name, no boundingBox), yet they are returned as a success. -/
theorem claim_C7_counterexample :
    (detectObjects "[1,2,3,4,5,6]").map List.length = Except.ok 6 ∧ ¬ (6 ≤ 5) :=
  ⟨by rfl, by decide⟩

/-- C7 (amended): `detect` succeeds exactly on responses whose
extracted candidate parses to an array, and then returns that array
unchanged — entries in the order the service listed them, with no
5-entry cap and no validation of entry shape or bounding-box
ranges. -/
theorem claim_C7_detect_unvalidated (t : String) (xs : List Json) :
    detectObjects t = .ok xs ↔ detectParsed t = some (Json.arr xs) := by
  unfold detectObjects detectParsed
  cases hc : extractCandidate matchBareDetect (jsTrim t).data with
  | none => simp
  | some c =>
    simp only [Option.some_bind]
    cases hp : jsonParse (String.mk c) with
    | none => simp
    | some v =>
      cases v with
      | arr ys => simp [Json.arr.injEq]
      | null => simp
      | bool b => simp
      | num q => simp
      | str s => simp
      | obj ms => simp

/-- C8 counterexample: the response `["a","b"]` parses to 2 prompts and
`generatePrompts` returns both without failing, although
`NUM_FRAMES_TO_GENERATE = 6`: the fixed sequence length is not
enforced on the response. -/
theorem claim_C8_counterexample :
    (generatePrompts "[\"a\",\"b\"]").map List.length = Except.ok 2 ∧
      ¬ (2 = NUM_FRAMES_TO_GENERATE) :=
  ⟨by rfl, by decide⟩

/-- C8 (amended): `generatePrompts` succeeds exactly on responses whose
extracted candidate parses to a non-empty array, and then returns that
array unchanged — any length from 1 up, elements not validated to be
non-empty strings; it fails exactly when extraction or parsing is
malformed, the parsed value is not an array, or the array is empty. -/
theorem claim_C8_prompts_contract (t : String) (xs : List Json) :
    generatePrompts t = .ok xs ↔
      (promptsParsed t = some (Json.arr xs) ∧ xs ≠ []) := by
  unfold generatePrompts promptsParsed
  cases hc : extractCandidate matchBarePrompts (jsTrim t).data with
  | none => simp
  | some c =>
    simp only [Option.some_bind]
    cases hp : jsonParse (String.mk c) with
    | none => simp
    | some v =>
      cases v with
      | arr ys =>
        cases ys with
        | nil => simp
        | cons y ys2 =>
          simp only [Except.ok.injEq, Option.some.injEq, Json.arr.injEq]
          constructor
          · intro h
            exact ⟨h, by rw [← h]; simp⟩
          · exact fun h => h.1
      | null => simp
      | bool b => simp
      | num q => simp
      | str s => simp
      | obj ms => simp

/-- C9: after a successful prompt generation with N prompts, the
orchestrator presents N + 1 frames — the untouched original image's
data first, then the chain frames in prompt order — and N + 1 prompt
labels with "Original Image" prepended, so that label index i names
frame index i for every i. -/
theorem claim_C9_presentation (beh : Nat → Nat → GenResult) (imagePart : ImagePart)
    (promptsResponseText : String) (prompts : List Json)
    (hp : generatePrompts promptsResponseText = .ok prompts) :
    ∃ (labels : List Json) (frames : List String),
      handleGenerateAnimation beh imagePart promptsResponseText = .ok (labels, frames) ∧
      labels = Json.str "Original Image" :: prompts ∧
      frames = imagePart.inlineData.data :: (generateFrames beh imagePart prompts).1 ∧
      frames.length = prompts.length + 1 ∧
      labels.length = prompts.length + 1 ∧
      frames[0]? = some imagePart.inlineData.data ∧
      labels[0]? = some (Json.str "Original Image") ∧
      (∀ i : Nat, frames[i + 1]? = ((generateFrames beh imagePart prompts).1)[i]?) ∧
      (∀ i : Nat, labels[i + 1]? = prompts[i]?) := by
  refine ⟨Json.str "Original Image" :: prompts,
    imagePart.inlineData.data :: (generateFrames beh imagePart prompts).1,
    ?_, rfl, rfl, ?_, by simp, List.getElem?_cons_zero, List.getElem?_cons_zero,
    fun i => List.getElem?_cons_succ, fun i => List.getElem?_cons_succ⟩
  · unfold handleGenerateAnimation
    rw [hp]
  · simp only [List.length_cons, generateFrames,
      generateFramesAux_length_fst beh prompts 0 imagePart imagePart.inlineData.data]

/-- Witness for C9 at a concrete run: one prompt response `["a"]`, an
all-success service, and the assembled presentation lists. -/
theorem claim_C9_presentation_witness :
    ∃ (labels : List Json) (frames : List String),
      handleGenerateAnimation (fun _ _ => GenResult.ok "new" "image/png")
          (base64ToGenerativePart "orig" "image/png") "[\"a\"]" = .ok (labels, frames) ∧
      labels = Json.str "Original Image" :: [Json.str "a"] ∧
      frames = (base64ToGenerativePart "orig" "image/png").inlineData.data ::
        (generateFrames (fun _ _ => GenResult.ok "new" "image/png")
          (base64ToGenerativePart "orig" "image/png") [Json.str "a"]).1 ∧
      frames.length = [Json.str "a"].length + 1 ∧
      labels.length = [Json.str "a"].length + 1 ∧
      frames[0]? = some (base64ToGenerativePart "orig" "image/png").inlineData.data ∧
      labels[0]? = some (Json.str "Original Image") ∧
      (∀ i : Nat, frames[i + 1]? =
        ((generateFrames (fun _ _ => GenResult.ok "new" "image/png")
          (base64ToGenerativePart "orig" "image/png") [Json.str "a"]).1)[i]?) ∧
      (∀ i : Nat, labels[i + 1]? = [Json.str "a"][i]?) :=
  claim_C9_presentation (fun _ _ => GenResult.ok "new" "image/png")
    (base64ToGenerativePart "orig" "image/png") "[\"a\"]" [Json.str "a"] (by rfl)

end Flickerfy
